import Mathlib

/-!
Shallow embedding of the ourTabi backend (Express + PostgreSQL) data model
and of the operations the verified claims are about.

The relational store is modelled as a `Db` structure holding one list per
table, in insertion order (matching the row order a sequential insert
history produces, which is the order unqualified SELECTs return here).
SQL statements are translated clause by clause:
  - `WHERE` becomes `List.filter` / `List.find?` / `List.any`;
  - `INSERT` appends a row; `UPDATE` maps over rows; `DELETE` filters;
  - `ORDER BY` clauses are omitted where no claim depends on row order;
  - aggregate `SUM` over zero rows yields SQL NULL, modelled with `Option`.
Each JavaScript model method becomes a pure function returning
`Except AppError` mirroring the thrown expressError subclasses.
-/

namespace OurTabi

/-- Error taxonomy of helpers/expressError.js, plus a `dbError` constructor
for raw storage-layer failures (constraint violations, lost connections)
that the JavaScript code does not catch and remap. -/
inductive AppError where
  | notFound (msg : String)
  | badRequest (msg : String)
  | unauthorized (msg : String)
  | forbidden (msg : String)
  | dbError (msg : String)
deriving DecidableEq, Repr

/-- Results of fallible operations are compared in concrete witnesses,
so give `Except` decidable equality. -/
instance exceptDecEq {ε α : Type} [DecidableEq ε] [DecidableEq α] :
    DecidableEq (Except ε α) := fun x y =>
  match x, y with
  | .ok a, .ok b =>
    if h : a = b then .isTrue (h ▸ rfl)
    else .isFalse (fun hc => h (Except.ok.inj hc))
  | .error a, .error b =>
    if h : a = b then .isTrue (h ▸ rfl)
    else .isFalse (fun hc => h (Except.error.inj hc))
  | .ok _, .error _ => .isFalse (fun hc => Except.noConfusion hc)
  | .error _, .ok _ => .isFalse (fun hc => Except.noConfusion hc)

/-- Row of the `users` table. -/
structure UserRow where
  id : Nat
  username : String
  password : String
  firstName : String
  lastName : String
  email : String
  profilePic : Option String
  bio : String
  isAdmin : Bool
deriving DecidableEq, Repr

/-- Row of the `friend` table: ordered (sender, recipient) pair plus a
status string, `"pending"` or `"accepted"`. -/
structure FriendRow where
  senderId : Nat
  recipientId : Nat
  status : String
deriving DecidableEq, Repr

/-- Row of the `trip` table. -/
structure TripRow where
  id : Nat
  title : String
  destination : String
  radius : Int
  startDate : String
  endDate : String
  isPrivate : Bool
  createdAt : Nat
  creatorId : Nat
deriving DecidableEq, Repr

/-- Row of the `trip_member` table. -/
structure TripMemberRow where
  userId : Nat
  tripId : Nat
  role : String
  joinedAt : Nat
deriving DecidableEq, Repr

/-- Row of the `activity` table. -/
structure ActivityRow where
  id : Nat
  tripId : Nat
  name : String
  category : String
  description : String
  location : String
  scheduledTime : Nat
  createdBy : Nat
  createdAt : Nat
deriving DecidableEq, Repr

/-- Row of the `vote` table: single slot per (user, activity). -/
structure VoteRow where
  userId : Nat
  activityId : Nat
  voteValue : Int
  createdAt : Nat
deriving DecidableEq, Repr

/-- Row of the `comment` table. -/
structure CommentRow where
  id : Nat
  userId : Nat
  tripId : Nat
  text : String
  createdAt : Nat
deriving DecidableEq, Repr

/-- The whole relational store. `nextTripId` models the `trip.id` SERIAL
sequence and `now` models CURRENT_TIMESTAMP at the time of a statement. -/
structure Db where
  users : List UserRow
  friends : List FriendRow
  trips : List TripRow
  tripMembers : List TripMemberRow
  activities : List ActivityRow
  votes : List VoteRow
  comments : List CommentRow
  nextTripId : Nat
  now : Nat
deriving DecidableEq, Repr

/-- The symmetric pair condition used by every friend query:
`(sender_id = $1 AND recipient_id = $2) OR (sender_id = $2 AND recipient_id = $1)`. -/
def pairMatch (row : FriendRow) (a b : Nat) : Bool :=
  (row.senderId == a && row.recipientId == b) ||
    (row.senderId == b && row.recipientId == a)

namespace Friend

/-- models/friend.js `Friend.sendFriendRequest(senderId, recipientId)`.
The first two failures are the explicit checks in the JavaScript; the
third is the database rejecting the INSERT: the SQL schema declares
`sender_id INTEGER NOT NULL REFERENCES users(id)` and
`recipient_id INTEGER NOT NULL REFERENCES users(id)` on the friend
table, so an INSERT naming a missing user fails with a raw foreign-key
violation that the JavaScript does not catch or remap. -/
def sendFriendRequest (db : Db) (senderId recipientId : Nat) :
    Except AppError (FriendRow × Db) :=
  if senderId == recipientId then
    .error (.badRequest "Friend request cannot be sent to yourself.")
  else if (db.friends.filter (fun row => pairMatch row senderId recipientId)).length > 0 then
    .error (.badRequest "Friend request already sent or you are already friends.")
  else if !(db.users.any (fun u => u.id == senderId)) ||
      !(db.users.any (fun u => u.id == recipientId)) then
    .error (.dbError "insert into friend violates a foreign key constraint")
  else
    let row : FriendRow :=
      { senderId := senderId, recipientId := recipientId, status := "pending" }
    .ok (row, { db with friends := db.friends ++ [row] })

/-- models/friend.js `Friend.acceptFriendRequest(senderId, recipientId)`:
looks up a pending row for the unordered pair, requires the second
argument (the acting user, per the callers in routes/users.js) to be the
stored recipient, then updates that stored row to accepted. -/
def acceptFriendRequest (db : Db) (senderId recipientId : Nat) :
    Except AppError (FriendRow × Db) :=
  match db.friends.filter
      (fun row => pairMatch row senderId recipientId && row.status == "pending") with
  | [] => .error (.notFound "No pending friend request between users.")
  | request :: _ =>
    if recipientId != request.recipientId then
      .error (.badRequest "Only the recipient can accept the friend request.")
    else
      let updated := db.friends.map (fun row =>
        if row.senderId == request.senderId && row.recipientId == request.recipientId then
          { row with status := "accepted" }
        else row)
      .ok ({ request with status := "accepted" }, { db with friends := updated })

/-- models/friend.js `Friend.remove(senderId, recipientId)`: DELETE of
every row for the unordered pair; NotFound when nothing was deleted. -/
def remove (db : Db) (senderId recipientId : Nat) : Except AppError Db :=
  if (db.friends.filter (fun row => pairMatch row senderId recipientId)).length > 0 then
    .ok { db with friends := db.friends.filter (fun row => !(pairMatch row senderId recipientId)) }
  else
    .error (.notFound "No relationship found between users.")

/-- models/friend.js `Friend.areFriends(userId1, userId2)`:
`rowCount > 0` for accepted rows of the unordered pair. -/
def areFriends (db : Db) (userId1 userId2 : Nat) : Bool :=
  (db.friends.filter
    (fun row => pairMatch row userId1 userId2 && row.status == "accepted")).length > 0

end Friend

namespace TripMember

/-- models/tripMember.js `TripMember.addMember(userId, tripId, role)`:
role must be owner or member, the (user, trip) pair must not already have
a membership row, then an INSERT with `joined_at` defaulting to now. -/
def addMember (db : Db) (userId tripId : Nat) (role : String) :
    Except AppError (TripMemberRow × Db) :=
  if !(role == "owner" || role == "member") then
    .error (.badRequest "Invalid role. Must be owner or member.")
  else if (db.tripMembers.filter
      (fun m => m.userId == userId && m.tripId == tripId)).length > 0 then
    .error (.badRequest "User is already a member of this trip.")
  else
    let row : TripMemberRow :=
      { userId := userId, tripId := tripId, role := role, joinedAt := db.now }
    .ok (row, { db with tripMembers := db.tripMembers ++ [row] })

/-- Projection of a membership JOIN users row, as returned by
`TripMember.getTripMembers`. -/
structure TripMemberInfo where
  userId : Nat
  username : String
  firstName : String
  lastName : String
  email : String
  profilePic : Option String
  role : String
  joinedAt : Nat
deriving DecidableEq, Repr

/-- models/tripMember.js `TripMember.getTripMembers(tripId)`: inner join
of trip_member with users on user_id. The ORDER BY joined_at clause only
reorders rows and is omitted. -/
def getTripMembers (db : Db) (tripId : Nat) : List TripMemberInfo :=
  (db.tripMembers.filter (fun m => m.tripId == tripId)).filterMap (fun m =>
    (db.users.find? (fun u => u.id == m.userId)).map (fun u =>
      { userId := u.id, username := u.username, firstName := u.firstName,
        lastName := u.lastName, email := u.email, profilePic := u.profilePic,
        role := m.role, joinedAt := m.joinedAt }))

/-- models/tripMember.js `TripMember.isMember(userId, tripId)`: NotFound
when the user id or the trip id has no row, otherwise the membership row
or null (`Option`). -/
def isMember (db : Db) (userId tripId : Nat) :
    Except AppError (Option TripMemberRow) :=
  if !(db.users.any (fun u => u.id == userId)) then
    .error (.notFound "User not found.")
  else if !(db.trips.any (fun t => t.id == tripId)) then
    .error (.notFound "Trip not found.")
  else
    .ok (db.tripMembers.find? (fun m => m.userId == userId && m.tripId == tripId))

end TripMember

namespace Vote

/-- The row shape `castVote` returns (`RETURNING user_id, activity_id,
vote_value`, or the literal removal object). -/
structure VoteResult where
  userId : Nat
  activityId : Nat
  voteValue : Int
deriving DecidableEq, Repr

/-- models/vote.js `Vote.castVote(userId, activityId, voteValue)`:
validates the value against {1, 0, -1}, then branches on whether a row
for (user, activity) exists: delete on 0, UPDATE (value and created_at)
on nonzero; with no existing row, 0 is BadRequest and nonzero INSERTs. -/
def castVote (db : Db) (userId activityId : Nat) (voteValue : Int) :
    Except AppError (VoteResult × Db) :=
  if !(voteValue == 1 || voteValue == 0 || voteValue == -1) then
    .error (.badRequest
      "Invalid vote value. Must be either 1 (upvote), -1 (downvote), or 0 (vote removal).")
  else if (db.votes.filter
      (fun v => v.userId == userId && v.activityId == activityId)).length > 0 then
    if voteValue == 0 then
      .ok ({ userId := userId, activityId := activityId, voteValue := 0 },
        { db with votes := (db.votes.filter
          (fun v => !(v.userId == userId && v.activityId == activityId))) })
    else
      .ok ({ userId := userId, activityId := activityId, voteValue := voteValue },
        { db with votes := (db.votes.map (fun v =>
          if v.userId == userId && v.activityId == activityId then
            { v with voteValue := voteValue, createdAt := db.now }
          else v)) })
  else
    if voteValue == 0 then
      .error (.badRequest "No existing vote to remove.")
    else
      .ok ({ userId := userId, activityId := activityId, voteValue := voteValue },
        { db with votes := (db.votes ++
          [{ userId := userId, activityId := activityId, voteValue := voteValue,
             createdAt := db.now }]) })

/-- Result shape of the tally query. -/
structure VoteTally where
  upvotes : Nat
  downvotes : Nat
deriving DecidableEq, Repr

/-- SQL `SUM` over an empty set of rows is NULL; over a nonempty set it
is the arithmetic sum. -/
def sqlSum (xs : List Nat) : Option Nat :=
  if xs.isEmpty then none else some xs.sum

/-- models/vote.js `Vote.getVotesForActivity(activityId)`: two
conditional SUMs over the rows of the activity; the JavaScript wraps
each in `Number(...) || 0`, turning the NULL of an empty aggregate into
zero. -/
def getVotesForActivity (db : Db) (activityId : Nat) : VoteTally :=
  let rows := db.votes.filter (fun v => v.activityId == activityId)
  { upvotes := (sqlSum (rows.map (fun v => if v.voteValue == 1 then 1 else 0))).getD 0,
    downvotes := (sqlSum (rows.map (fun v => if v.voteValue == -1 then 1 else 0))).getD 0 }

end Vote

/-- One element of the `json_agg(json_build_object(...))` vote list in
`Activity.getActivitiesByTrip`: both fields are SQL-nullable because the
LEFT JOIN emits one all-NULL vote row for an activity with no votes. -/
structure VoteJson where
  userId : Option Nat
  voteValue : Option Int
deriving DecidableEq, Repr

/-- An activity row as assembled by `Activity.getActivitiesByTrip`. -/
structure ActivityWithVotes where
  id : Nat
  tripId : Nat
  name : String
  category : String
  description : String
  location : String
  scheduledTime : Nat
  createdBy : Nat
  createdAt : Nat
  votes : List VoteJson
deriving DecidableEq, Repr

/-- JavaScript truthiness of the nullable userId the normalization step
tests (`activity.votes[0].userId ? ... : []`): SQL NULL maps to `null`
(falsy) and the number 0 is also falsy. -/
def jsTruthyOptNat : Option Nat → Bool
  | none => false
  | some n => n != 0

namespace Activity

/-- models/activity.js `Activity.getActivitiesByTrip(tripId)`: LEFT JOIN
vote ON a.id = v.activity_id, GROUP BY a.id with `json_agg` (one entry
per joined vote row; a single all-NULL entry when the activity has no
votes), then the JavaScript normalization replacing the list by `[]`
when its first userId is falsy. The ORDER BY scheduled_time clause only
reorders rows and is omitted. -/
def getActivitiesByTrip (db : Db) (tripId : Nat) : List ActivityWithVotes :=
  (db.activities.filter (fun a => a.tripId == tripId)).map (fun a =>
    let joined := db.votes.filter (fun v => v.activityId == a.id)
    let agg : List VoteJson :=
      if joined.isEmpty then [{ userId := none, voteValue := none }]
      else joined.map (fun v => { userId := some v.userId, voteValue := some v.voteValue })
    { id := a.id, tripId := a.tripId, name := a.name, category := a.category,
      description := a.description, location := a.location,
      scheduledTime := a.scheduledTime, createdBy := a.createdBy,
      createdAt := a.createdAt,
      votes := if jsTruthyOptNat ((agg.headD { userId := none, voteValue := none }).userId)
               then agg else [] })

end Activity

/-- A comment JOIN users row as returned by `Comment.getCommentsByTrip`. -/
structure CommentInfo where
  id : Nat
  userId : Nat
  username : String
  tripId : Nat
  text : String
  createdAt : Nat
deriving DecidableEq, Repr

namespace Comment

/-- models/comment.js `Comment.getCommentsByTrip(tripId)`: inner join
with users; the ORDER BY created_at clause only reorders rows and is
omitted. -/
def getCommentsByTrip (db : Db) (tripId : Nat) : List CommentInfo :=
  (db.comments.filter (fun c => c.tripId == tripId)).filterMap (fun c =>
    (db.users.find? (fun u => u.id == c.userId)).map (fun u =>
      { id := c.id, userId := c.userId, username := u.username,
        tripId := c.tripId, text := c.text, createdAt := c.createdAt }))

end Comment

namespace Trip

/-- Input of `Trip.create` (request body plus the logged-in creator). -/
structure TripNewData where
  title : String
  destination : String
  radius : Int
  startDate : String
  endDate : String
  isPrivate : Bool
  creatorId : Nat
deriving DecidableEq, Repr

/-- models/trip.js `Trip.create(data)`: INSERTs the trip row, then calls
`TripMember.addMember(creatorId, tripId, "owner")` as a second,
independent statement — there is no BEGIN/COMMIT around the two writes
(neither in the model nor in app.js). `memberInsertFails` models the
database failing the second statement (for example the connection
dropping between them); the trip row, already committed by the first
statement, stays in the store in that case. -/
def create (db : Db) (data : TripNewData) (memberInsertFails : Bool) :
    (Except AppError TripRow) × Db :=
  let trip : TripRow :=
    { id := db.nextTripId, title := data.title, destination := data.destination,
      radius := data.radius, startDate := data.startDate, endDate := data.endDate,
      isPrivate := data.isPrivate, createdAt := db.now, creatorId := data.creatorId }
  let db1 := { db with trips := db.trips ++ [trip], nextTripId := db.nextTripId + 1 }
  if memberInsertFails then
    (.error (.dbError "connection failed before the membership insert"), db1)
  else
    match TripMember.addMember db1 trip.creatorId trip.id "owner" with
    | .error e => (.error e, db1)
    | .ok (_, db2) => (.ok trip, db2)

/-- JavaScript truthiness of an optional query-string filter: `undefined`
and the empty string are falsy, so `if (title)` skips the clause. -/
def jsTruthyStr : Option String → Bool
  | none => false
  | some s => s != ""

/-- Whether `pat` is an initial segment of `hay` (helper for the ILIKE
model). -/
def charsStartWith : List Char → List Char → Bool
  | [], _ => true
  | _ :: _, [] => false
  | p :: ps, h :: hs => p == h && charsStartWith ps hs

/-- Whether `pat` occurs as a contiguous segment of `hay` (helper for the
ILIKE model). -/
def charsContain (hay pat : List Char) : Bool :=
  match hay with
  | [] => pat.isEmpty
  | _ :: rest => charsStartWith pat hay || charsContain rest pat

/-- SQL `ILIKE $pat` with the parameter wrapped in percent signs:
case-insensitive substring containment. -/
def ilikeContains (hay pat : String) : Bool :=
  charsContain hay.toLower.toList pat.toLower.toList

/-- models/trip.js `Trip.findAll(searchFilters)`: base query
`WHERE is_private = FALSE`, with each provided filter conjoined via AND.
The ORDER BY created_at clause only reorders rows and is omitted. -/
def findAll (db : Db) (title destination : Option String) : List TripRow :=
  db.trips.filter (fun t =>
    !t.isPrivate
    && (if jsTruthyStr title then ilikeContains t.title (title.getD "") else true)
    && (if jsTruthyStr destination then ilikeContains t.destination (destination.getD "") else true))

/-- models/trip.js `Trip.isOwner(userId, tripId)`: a trip row with this
id and creator exists. -/
def isOwner (db : Db) (userId tripId : Nat) : Bool :=
  (db.trips.filter (fun t => t.id == tripId && t.creatorId == userId)).length > 0

/-- The nested payload `Trip.get` assembles. -/
structure TripDetail where
  trip : TripRow
  activities : List ActivityWithVotes
  members : List TripMember.TripMemberInfo
  comments : List CommentInfo
deriving DecidableEq, Repr

/-- models/trip.js `Trip.get(tripId)`: the trip row or NotFound, then the
three owned collections fanned out. -/
def get (db : Db) (tripId : Nat) : Except AppError TripDetail :=
  match db.trips.find? (fun t => t.id == tripId) with
  | none => .error (.notFound "No trip found with the given id.")
  | some trip =>
    .ok { trip := trip,
          activities := Activity.getActivitiesByTrip db trip.id,
          members := TripMember.getTripMembers db trip.id,
          comments := Comment.getCommentsByTrip db trip.id }

end Trip

namespace Routes

/-- routes/trips.js `GET /trips/:tripId` for a logged-in user: the
ensureTripExists middleware runs `Trip.get` (NotFound when the trip is
missing), the handler runs `Trip.get` again, asks
`TripMember.isMember(user.id, trip.id)`, and answers Forbidden when the
trip is private and the membership lookup came back null. -/
def getTripDetail (db : Db) (userId tripId : Nat) :
    Except AppError Trip.TripDetail :=
  match Trip.get db tripId with
  | .error e => .error e
  | .ok _ =>
    match Trip.get db tripId with
    | .error e => .error e
    | .ok trip =>
      match TripMember.isMember db userId trip.trip.id with
      | .error e => .error e
      | .ok member =>
        if trip.trip.isPrivate && member.isNone then
          .error (.forbidden "Unauthorized to view this trip.")
        else
          .ok trip

end Routes

namespace User

/-- The object `User.authenticate` returns: the SELECTed row with the
password key removed (`delete user.password`), modelled by an `Option`
field that success sets to `none`. -/
structure AuthedUser where
  id : Nat
  username : String
  password : Option String
  firstName : String
  lastName : String
  email : String
  isAdmin : Bool
deriving DecidableEq, Repr

/-- models/user.js `User.authenticate(username, password)`: one row by
username; bcrypt.compare is the external collaborator `verify`; both the
missing-user case and the failed-compare case fall through to the same
UnauthorizedError. -/
def authenticate (db : Db) (verify : String → String → Bool)
    (username password : String) : Except AppError AuthedUser :=
  match db.users.find? (fun u => u.username == username) with
  | some u =>
    if verify password u.password then
      .ok { id := u.id, username := u.username, password := none,
            firstName := u.firstName, lastName := u.lastName,
            email := u.email, isAdmin := u.isAdmin }
    else
      .error (.unauthorized "Invalid username/password")
  | none => .error (.unauthorized "Invalid username/password")

end User

/-! ## Helper lemmas -/

/-- `rowCount > 0` on a filtered SELECT is the same as `any` over the
table. -/
theorem filter_length_pos_iff_any {α : Type} (l : List α) (p : α → Bool) :
    (l.filter p).length > 0 ↔ l.any p = true := by
  induction l with
  | nil => simp
  | cons x xs ih =>
    by_cases h : p x <;> simp [List.filter_cons, h, ih]

/-- A conditional SUM of 1-or-0 equals the row count of the matching
filter. -/
theorem sum_map_ite_eq_length_filter {α : Type} (l : List α) (p : α → Bool) :
    (l.map (fun x => if p x then (1 : Nat) else 0)).sum = (l.filter p).length := by
  induction l with
  | nil => rfl
  | cons x xs ih =>
    by_cases h : p x <;> simp [List.filter_cons, h, ih, Nat.add_comm]

/-- The pair condition of the friend queries is symmetric in the two
user ids. -/
theorem pairMatch_symm (row : FriendRow) (a b : Nat) :
    pairMatch row a b = pairMatch row b a := by
  unfold pairMatch
  exact Bool.or_comm _ _

/-! ## Concrete stores used by witnesses and counterexamples -/

/-- The empty store. -/
def db0 : Db :=
  { users := [], friends := [], trips := [], tripMembers := [],
    activities := [], votes := [], comments := [], nextTripId := 1, now := 0 }

/-- A user row with the given id and username and fixed profile fields. -/
def mkUser (i : Nat) (name : String) : UserRow :=
  { id := i, username := name, password := "hashed", firstName := "F",
    lastName := "L", email := "e@x.com", profilePic := none, bio := "",
    isAdmin := false }

/-- A NULL-able conditional SUM, coalesced with 0, is the matching row
count whether or not any row matched. -/
theorem sqlSum_indicator_getD (l : List VoteRow) (p : VoteRow → Bool) :
    (Vote.sqlSum (l.map (fun v => if p v then (1 : Nat) else 0))).getD 0 =
      (l.filter p).length := by
  cases l with
  | nil => rfl
  | cons x xs =>
    unfold Vote.sqlSum
    rw [if_neg (by simp), Option.getD_some]
    exact sum_map_ite_eq_length_filter _ _

/-! ## C5 — vote tally -/

/-- Claim C5: for every activity id, the vote tally returns the count of
rows with value +1 as upvotes and the count of rows with value -1 as
downvotes, and for an activity with no vote rows it returns
upvotes = 0 and downvotes = 0 rather than an error or null counts. -/
theorem C5_tally_counts (db : Db) (a : Nat) :
    Vote.getVotesForActivity db a =
      { upvotes := ((db.votes.filter (fun v => v.activityId == a)).filter
          (fun v => v.voteValue == 1)).length,
        downvotes := ((db.votes.filter (fun v => v.activityId == a)).filter
          (fun v => v.voteValue == -1)).length } ∧
    (db.votes.filter (fun v => v.activityId == a) = [] →
      Vote.getVotesForActivity db a = { upvotes := 0, downvotes := 0 }) := by
  have main : Vote.getVotesForActivity db a =
      { upvotes := ((db.votes.filter (fun v => v.activityId == a)).filter
          (fun v => v.voteValue == 1)).length,
        downvotes := ((db.votes.filter (fun v => v.activityId == a)).filter
          (fun v => v.voteValue == -1)).length } := by
    show ({ upvotes := (Vote.sqlSum ((db.votes.filter (fun v => v.activityId == a)).map
              (fun v => if v.voteValue == 1 then 1 else 0))).getD 0,
            downvotes := (Vote.sqlSum ((db.votes.filter (fun v => v.activityId == a)).map
              (fun v => if v.voteValue == -1 then 1 else 0))).getD 0 } : Vote.VoteTally) = _
    rw [sqlSum_indicator_getD, sqlSum_indicator_getD]
  refine ⟨main, fun hnil => ?_⟩
  rw [main, hnil]
  rfl

/-- Witness for C5: votes {+1, +1, -1} on activity 7 tally to 2 up and
1 down, and activity 8, which has no votes, tallies to zeroes. -/
theorem C5_tally_counts_witness :
    Vote.getVotesForActivity
        { db0 with votes := [⟨1, 7, 1, 0⟩, ⟨2, 7, 1, 0⟩, ⟨3, 7, -1, 0⟩] } 7 =
      { upvotes := 2, downvotes := 1 } ∧
    Vote.getVotesForActivity
        { db0 with votes := [⟨1, 7, 1, 0⟩, ⟨2, 7, 1, 0⟩, ⟨3, 7, -1, 0⟩] } 8 =
      { upvotes := 0, downvotes := 0 } :=
  ⟨(C5_tally_counts
      { db0 with votes := [⟨1, 7, 1, 0⟩, ⟨2, 7, 1, 0⟩, ⟨3, 7, -1, 0⟩] } 7).1.trans
    (by decide),
   (C5_tally_counts
      { db0 with votes := [⟨1, 7, 1, 0⟩, ⟨2, 7, 1, 0⟩, ⟨3, 7, -1, 0⟩] } 8).2
    (by decide)⟩

/-! ## C6 — areFriends is symmetric and means an accepted row -/

/-- Claim C6: for every pair of users A and B, areFriends(A,B) equals
areFriends(B,A); it is true exactly when an accepted row exists for the
unordered pair, hence false while every row of the pair is still
pending, and false after Friend.remove deletes the pair. -/
theorem C6_areFriends_spec (db : Db) (a b : Nat) :
    Friend.areFriends db a b = Friend.areFriends db b a ∧
    (Friend.areFriends db a b = true ↔
      ∃ row ∈ db.friends, pairMatch row a b = true ∧ row.status = "accepted") ∧
    ((∀ row ∈ db.friends, pairMatch row a b = true → row.status = "pending") →
      Friend.areFriends db a b = false) ∧
    (∀ db2, Friend.remove db a b = .ok db2 → Friend.areFriends db2 a b = false) := by
  refine ⟨?_, ?_, ?_, ?_⟩
  · unfold Friend.areFriends
    have : (fun row => pairMatch row a b && row.status == "accepted") =
        (fun row => pairMatch row b a && row.status == "accepted") := by
      funext row
      rw [pairMatch_symm]
    rw [this]
  · unfold Friend.areFriends
    rw [decide_eq_true_eq, filter_length_pos_iff_any, List.any_eq_true]
    constructor
    · rintro ⟨row, hmem, hcond⟩
      rw [Bool.and_eq_true, beq_iff_eq] at hcond
      exact ⟨row, hmem, hcond.1, hcond.2⟩
    · rintro ⟨row, hmem, h1, h2⟩
      exact ⟨row, hmem, by rw [Bool.and_eq_true, beq_iff_eq]; exact ⟨h1, h2⟩⟩
  · intro hall
    unfold Friend.areFriends
    have hnil : db.friends.filter
        (fun row => pairMatch row a b && row.status == "accepted") = [] := by
      rw [List.filter_eq_nil_iff]
      intro row hmem
      rw [Bool.and_eq_true, beq_iff_eq]
      rintro ⟨h1, h2⟩
      have := hall row hmem h1
      rw [this] at h2
      exact absurd h2 (by decide)
    rw [hnil]
    rfl
  · intro db2 hrm
    unfold Friend.remove at hrm
    split at hrm
    · have hdb2 :
          ({ db with friends := db.friends.filter (fun row => !(pairMatch row a b)) } : Db)
            = db2 := Except.ok.inj hrm
      subst hdb2
      unfold Friend.areFriends
      apply decide_eq_false
      intro hpos
      rw [filter_length_pos_iff_any, List.any_eq_true] at hpos
      obtain ⟨row, hmem, hcond⟩ := hpos
      rw [Bool.and_eq_true] at hcond
      have h2 := (List.mem_filter.mp hmem).2
      rw [Bool.not_eq_eq_eq_not, Bool.not_true] at h2
      rw [h2] at hcond
      exact absurd hcond.1 (by decide)
    · exact absurd hrm (by simp)

/-- Witness for C6: with a single accepted row (3, 4), areFriends holds
in both argument orders; while the row between 5 and 6 is pending,
areFriends is false; and after removing pair (3, 4) it is false. -/
theorem C6_areFriends_spec_witness :
    Friend.areFriends { db0 with friends := [⟨3, 4, "accepted"⟩, ⟨5, 6, "pending"⟩] } 4 3 = true ∧
    Friend.areFriends { db0 with friends := [⟨3, 4, "accepted"⟩, ⟨5, 6, "pending"⟩] } 5 6 = false ∧
    Friend.areFriends { db0 with friends := [⟨5, 6, "pending"⟩] } 3 4 = false := by
  refine ⟨?_, ?_, ?_⟩
  · exact (C6_areFriends_spec { db0 with friends := [⟨3, 4, "accepted"⟩, ⟨5, 6, "pending"⟩] } 4 3).2.1.mpr
      ⟨⟨3, 4, "accepted"⟩, by decide, by decide, rfl⟩
  · exact (C6_areFriends_spec { db0 with friends := [⟨3, 4, "accepted"⟩, ⟨5, 6, "pending"⟩] } 5 6).2.2.1
      (by decide)
  · exact (C6_areFriends_spec { db0 with friends := [⟨3, 4, "accepted"⟩, ⟨5, 6, "pending"⟩] } 3 4).2.2.2
      { db0 with friends := [⟨5, 6, "pending"⟩] } (by decide)

/-! ## C9 — Trip.findAll never returns a private trip -/

/-- Claim C9: Trip.findAll never returns a private trip — for every
combination of the optional title and destination filters, every trip in
the result has isPrivate = false, because the is_private = FALSE
condition is part of the base query and filters are only conjoined. -/
theorem C9_findAll_only_public (db : Db) (title destination : Option String) :
    ∀ t ∈ Trip.findAll db title destination, t.isPrivate = false := by
  intro t ht
  have hcond := (List.mem_filter.mp ht).2
  rw [Bool.and_eq_true, Bool.and_eq_true] at hcond
  have := hcond.1.1
  rwa [Bool.not_eq_eq_eq_not, Bool.not_true] at this

/-- Witness for C9: on a store holding one public and one private trip,
the public trip is in the unfiltered result and is not private. -/
theorem C9_findAll_only_public_witness :
    (⟨1, "Public Trip", "Paris", 5, "2025-01-01", "2025-01-02", false, 0, 1⟩ : TripRow).isPrivate
      = false :=
  C9_findAll_only_public
    { db0 with trips := [⟨1, "Public Trip", "Paris", 5, "2025-01-01", "2025-01-02", false, 0, 1⟩,
                         ⟨2, "Secret Trip", "Oslo", 5, "2025-01-01", "2025-01-02", true, 0, 1⟩] }
    none none _ (by decide)

/-! ## C10 — authenticate error indistinguishability and password hygiene -/

/-- Claim C10: User.authenticate answers the same
UnauthorizedError "Invalid username/password" both when no user with
the given username exists and when the password comparison fails, so the
two causes are indistinguishable to the caller; every error it produces
is that one value, and a success never carries the password hash. -/
theorem C10_authenticate_spec (db : Db) (verify : String → String → Bool)
    (username password : String) :
    (db.users.find? (fun u => u.username == username) = none →
      User.authenticate db verify username password =
        .error (.unauthorized "Invalid username/password")) ∧
    (∀ u, db.users.find? (fun u => u.username == username) = some u →
      verify password u.password = false →
      User.authenticate db verify username password =
        .error (.unauthorized "Invalid username/password")) ∧
    (∀ e, User.authenticate db verify username password = .error e →
      e = .unauthorized "Invalid username/password") ∧
    (∀ au, User.authenticate db verify username password = .ok au →
      au.password = none) := by
  refine ⟨?_, ?_, ?_, ?_⟩
  · intro h
    unfold User.authenticate
    rw [h]
  · intro u hu hv
    unfold User.authenticate
    rw [hu]
    simp [hv]
  · intro e he
    unfold User.authenticate at he
    cases hfind : db.users.find? (fun u => u.username == username) with
    | none =>
      rw [hfind] at he
      exact (Except.error.inj he).symm
    | some u =>
      rw [hfind] at he
      by_cases hv : verify password u.password
      · simp [hv] at he
      · simp [hv] at he
        exact he.symm
  · intro au hau
    unfold User.authenticate at hau
    cases hfind : db.users.find? (fun u => u.username == username) with
    | none =>
      rw [hfind] at hau
      exact absurd hau (by simp)
    | some u =>
      rw [hfind] at hau
      by_cases hv : verify password u.password
      · simp [hv] at hau
        rw [← hau]
      · simp [hv] at hau

/-- Witness for C10: with one stored user "amy", an unknown username and
a wrong password produce the identical error value, and the successful
login returns an object whose password field is gone. -/
theorem C10_authenticate_spec_witness :
    User.authenticate { db0 with users := [mkUser 1 "amy"] } (fun p h => p == h)
        "zoe" "hashed" = .error (.unauthorized "Invalid username/password") ∧
    User.authenticate { db0 with users := [mkUser 1 "amy"] } (fun p h => p == h)
        "amy" "wrong" = .error (.unauthorized "Invalid username/password") ∧
    ({ id := 1, username := "amy", password := none, firstName := "F", lastName := "L",
       email := "e@x.com", isAdmin := false } : User.AuthedUser).password = none :=
  ⟨(C10_authenticate_spec { db0 with users := [mkUser 1 "amy"] } (fun p h => p == h)
      "zoe" "hashed").1 (by decide),
   (C10_authenticate_spec { db0 with users := [mkUser 1 "amy"] } (fun p h => p == h)
      "amy" "wrong").2.1 (mkUser 1 "amy") (by decide) (by decide),
   (C10_authenticate_spec { db0 with users := [mkUser 1 "amy"] } (fun p h => p == h)
      "amy" "hashed").2.2.2 _ (by decide)⟩

/-! ## C1 — sendFriendRequest -/

/-- Claim C1: for every pair of user ids, sendFriendRequest fails with
BadRequest when sender equals recipient; fails with BadRequest when any
friend row already exists for the pair in either stored direction and
any status; fails when the recipient user does not exist (the insert
hits the foreign-key constraint); and on success it appends exactly one
new pending row recording that sender/recipient order. -/
theorem C1_sendFriendRequest_spec (db : Db) (s r : Nat) :
    (s = r → Friend.sendFriendRequest db s r =
      .error (.badRequest "Friend request cannot be sent to yourself.")) ∧
    (s ≠ r → (∃ row ∈ db.friends, pairMatch row s r = true) →
      Friend.sendFriendRequest db s r =
        .error (.badRequest "Friend request already sent or you are already friends.")) ∧
    ((∀ u ∈ db.users, u.id ≠ r) → ∃ e, Friend.sendFriendRequest db s r = .error e) ∧
    (∀ row db2, Friend.sendFriendRequest db s r = .ok (row, db2) →
      row = { senderId := s, recipientId := r, status := "pending" } ∧
      db2.friends = db.friends ++ [row]) := by
  refine ⟨?_, ?_, ?_, ?_⟩
  · intro h
    subst h
    simp [Friend.sendFriendRequest]
  · intro hne hex
    unfold Friend.sendFriendRequest
    rw [if_neg (by simp [hne]), if_pos]
    obtain ⟨row, hmem, hp⟩ := hex
    exact filter_length_pos_iff_any _ _ |>.mpr (List.any_eq_true.mpr ⟨row, hmem, hp⟩)
  · intro hnr
    by_cases h1 : (s == r) = true
    · exact ⟨_, by unfold Friend.sendFriendRequest; rw [if_pos h1]⟩
    · by_cases h2 : (db.friends.filter (fun row => pairMatch row s r)).length > 0
      · exact ⟨_, by unfold Friend.sendFriendRequest; rw [if_neg h1, if_pos h2]⟩
      · have hany : db.users.any (fun u => u.id == r) = false := by
          rw [List.any_eq_false]
          intro u hu
          simp [hnr u hu]
        exact ⟨_, by
          unfold Friend.sendFriendRequest
          rw [if_neg h1, if_neg h2, if_pos (by rw [hany]; simp)]⟩
  · intro row db2 hok
    unfold Friend.sendFriendRequest at hok
    split_ifs at hok with h1 h2 h3
    simp only [Except.ok.injEq, Prod.mk.injEq] at hok
    obtain ⟨hrow, hdb⟩ := hok
    subst hrow
    subst hdb
    exact ⟨rfl, rfl⟩

/-- Witness for C1: self requests and reverse duplicates fail with the
stated BadRequests, a missing recipient fails, and a fresh request
appends one pending row in sender/recipient order. -/
theorem C1_sendFriendRequest_spec_witness :
    Friend.sendFriendRequest { db0 with users := [mkUser 1 "amy", mkUser 2 "bob"] } 1 1 =
      .error (.badRequest "Friend request cannot be sent to yourself.") ∧
    Friend.sendFriendRequest
        { db0 with users := [mkUser 1 "amy", mkUser 2 "bob"],
                   friends := [⟨2, 1, "pending"⟩] } 1 2 =
      .error (.badRequest "Friend request already sent or you are already friends.") ∧
    (∃ e, Friend.sendFriendRequest { db0 with users := [mkUser 1 "amy", mkUser 2 "bob"] } 1 99 =
      .error e) ∧
    ((⟨1, 2, "pending"⟩ : FriendRow) =
        { senderId := 1, recipientId := 2, status := "pending" } ∧
      ({ db0 with users := [mkUser 1 "amy", mkUser 2 "bob"],
                  friends := [⟨1, 2, "pending"⟩] } : Db).friends =
        ({ db0 with users := [mkUser 1 "amy", mkUser 2 "bob"] } : Db).friends
          ++ [⟨1, 2, "pending"⟩]) :=
  ⟨(C1_sendFriendRequest_spec { db0 with users := [mkUser 1 "amy", mkUser 2 "bob"] } 1 1).1 rfl,
   (C1_sendFriendRequest_spec
      { db0 with users := [mkUser 1 "amy", mkUser 2 "bob"],
                 friends := [⟨2, 1, "pending"⟩] } 1 2).2.1 (by decide)
     ⟨⟨2, 1, "pending"⟩, by decide, by decide⟩,
   (C1_sendFriendRequest_spec { db0 with users := [mkUser 1 "amy", mkUser 2 "bob"] } 1 99).2.2.1
     (by decide),
   (C1_sendFriendRequest_spec { db0 with users := [mkUser 1 "amy", mkUser 2 "bob"] } 1 2).2.2.2
     ⟨1, 2, "pending"⟩
     { db0 with users := [mkUser 1 "amy", mkUser 2 "bob"], friends := [⟨1, 2, "pending"⟩] }
     (by decide)⟩

/-! ## C2 — acceptFriendRequest -/

/-- The store of the C2 counterexample: the pair (1, 2) has a
relationship row that is already accepted, hence not pending. -/
def dbC2cx : Db := { db0 with friends := [⟨1, 2, "accepted"⟩] }

/-- Counterexample to claim C2 as stated: when a relationship exists for
the pair but its status is not pending, acceptFriendRequest answers
NotFound — its lookup query already filters on status = pending — and
not the BadRequest the claim requires. -/
theorem C2_accept_counterexample :
    (∃ row ∈ dbC2cx.friends, pairMatch row 1 2 = true ∧ row.status ≠ "pending") ∧
    Friend.acceptFriendRequest dbC2cx 1 2 =
      .error (.notFound "No pending friend request between users.") ∧
    (∀ m, Friend.acceptFriendRequest dbC2cx 1 2 ≠ .error (.badRequest m)) := by
  refine ⟨⟨⟨1, 2, "accepted"⟩, by decide, by decide, by decide⟩, by decide, ?_⟩
  intro m hm
  rw [show Friend.acceptFriendRequest dbC2cx 1 2 =
      .error (.notFound "No pending friend request between users.") from by decide] at hm
  exact AppError.noConfusion (Except.error.inj hm)

/-- Claim C2 as amended: acceptFriendRequest fails with NotFound when no
pending relationship exists for the pair — including when a relationship
exists whose status is not pending; it fails with BadRequest when the
acting user (second argument at every call site) is not the recorded
recipient; on success the stored row transitions to accepted; and, when
the pair has a unique row, accepting a second time fails (NotFound). -/
theorem C2_acceptFriendRequest_spec (db : Db) (senderId actingId : Nat) :
    (db.friends.filter
        (fun row => pairMatch row senderId actingId && row.status == "pending") = [] →
      Friend.acceptFriendRequest db senderId actingId =
        .error (.notFound "No pending friend request between users.")) ∧
    (∀ req rest,
      db.friends.filter
          (fun row => pairMatch row senderId actingId && row.status == "pending") = req :: rest →
      actingId ≠ req.recipientId →
      Friend.acceptFriendRequest db senderId actingId =
        .error (.badRequest "Only the recipient can accept the friend request.")) ∧
    (∀ req rest,
      db.friends.filter
          (fun row => pairMatch row senderId actingId && row.status == "pending") = req :: rest →
      actingId = req.recipientId →
      Friend.acceptFriendRequest db senderId actingId =
        .ok ({ req with status := "accepted" },
          { db with friends := (db.friends.map (fun row =>
            if row.senderId == req.senderId && row.recipientId == req.recipientId then
              { row with status := "accepted" }
            else row)) })) ∧
    (∀ req rest res db2,
      db.friends.filter
          (fun row => pairMatch row senderId actingId && row.status == "pending") = req :: rest →
      (∀ r1 ∈ db.friends, pairMatch r1 senderId actingId = true →
        r1.senderId = req.senderId ∧ r1.recipientId = req.recipientId) →
      Friend.acceptFriendRequest db senderId actingId = .ok (res, db2) →
      Friend.acceptFriendRequest db2 senderId actingId =
        .error (.notFound "No pending friend request between users.")) := by
  refine ⟨?_, ?_, ?_, ?_⟩
  · intro h
    unfold Friend.acceptFriendRequest
    rw [h]
  · intro req rest hfilter hne
    unfold Friend.acceptFriendRequest
    rw [hfilter]
    simp only [if_pos (by simp [hne] : (actingId != req.recipientId) = true)]
  · intro req rest hfilter heq
    unfold Friend.acceptFriendRequest
    rw [hfilter]
    simp only [if_neg (by simp [heq] : ¬((actingId != req.recipientId) = true))]
  · intro req rest res db2 hfilter huniq hok
    unfold Friend.acceptFriendRequest at hok
    rw [hfilter] at hok
    by_cases hb : (actingId != req.recipientId) = true
    · simp only [if_pos hb] at hok
      exact absurd hok (by simp)
    · simp only [if_neg hb, Except.ok.injEq, Prod.mk.injEq] at hok
      have hdb2 : db2.friends = db.friends.map (fun row =>
          if row.senderId == req.senderId && row.recipientId == req.recipientId then
            { row with status := "accepted" }
          else row) := by
        rw [← hok.2]
      have hnil : db2.friends.filter
          (fun row => pairMatch row senderId actingId && row.status == "pending") = [] := by
        rw [hdb2, List.filter_eq_nil_iff]
        intro row hrow
        obtain ⟨orig, horig, hfo⟩ := List.mem_map.mp hrow
        by_cases hcond :
            (orig.senderId == req.senderId && orig.recipientId == req.recipientId) = true
        · rw [if_pos hcond] at hfo
          rw [← hfo]
          intro hc
          rw [Bool.and_eq_true] at hc
          have h2 : (("accepted" : String) == "pending") = true := hc.2
          exact absurd h2 (by decide)
        · rw [if_neg hcond] at hfo
          rw [← hfo]
          intro hc
          rw [Bool.and_eq_true] at hc
          have hu := huniq orig horig hc.1
          apply hcond
          rw [Bool.and_eq_true, beq_iff_eq, beq_iff_eq]
          exact hu
      unfold Friend.acceptFriendRequest
      rw [hnil]

/-- Witness for the amended C2: no row at all means NotFound; the sender
cannot self-approve (BadRequest); the recipient accepting transitions
the row to accepted; accepting again after success is NotFound. -/
theorem C2_acceptFriendRequest_spec_witness :
    Friend.acceptFriendRequest db0 1 2 =
      .error (.notFound "No pending friend request between users.") ∧
    Friend.acceptFriendRequest { db0 with friends := [⟨1, 2, "pending"⟩] } 2 1 =
      .error (.badRequest "Only the recipient can accept the friend request.") ∧
    Friend.acceptFriendRequest { db0 with friends := [⟨1, 2, "pending"⟩] } 1 2 =
      .ok (⟨1, 2, "accepted"⟩, { db0 with friends := [⟨1, 2, "accepted"⟩] }) ∧
    Friend.acceptFriendRequest { db0 with friends := [⟨1, 2, "accepted"⟩] } 1 2 =
      .error (.notFound "No pending friend request between users.") := by
  refine ⟨?_, ?_, ?_, ?_⟩
  · exact (C2_acceptFriendRequest_spec db0 1 2).1 (by decide)
  · exact (C2_acceptFriendRequest_spec { db0 with friends := [⟨1, 2, "pending"⟩] } 2 1).2.1
      ⟨1, 2, "pending"⟩ [] (by decide) (by decide)
  · exact ((C2_acceptFriendRequest_spec { db0 with friends := [⟨1, 2, "pending"⟩] } 1 2).2.2.1
      ⟨1, 2, "pending"⟩ [] (by decide) (by decide)).trans (by decide)
  · exact (C2_acceptFriendRequest_spec { db0 with friends := [⟨1, 2, "pending"⟩] } 1 2).2.2.2
      ⟨1, 2, "pending"⟩ [] ⟨1, 2, "accepted"⟩ { db0 with friends := [⟨1, 2, "accepted"⟩] }
      (by decide) (by decide) (by decide)

/-! ## C4 — castVote -/

/-- Claim C4: a value outside {-1, 0, 1} fails BadRequest; with an
existing row, 0 deletes the row returning a removal result and nonzero
updates the stored value refreshing its timestamp; with no row, 0 fails
BadRequest and nonzero inserts a new row; and a value of 0 is never left
stored as a vote. -/
theorem C4_castVote_spec (db : Db) (u a : Nat) (v : Int) :
    ((v ≠ 1 ∧ v ≠ 0 ∧ v ≠ -1) → Vote.castVote db u a v =
      .error (.badRequest
        "Invalid vote value. Must be either 1 (upvote), -1 (downvote), or 0 (vote removal).")) ∧
    ((∃ r ∈ db.votes, r.userId = u ∧ r.activityId = a) →
      Vote.castVote db u a 0 =
        .ok ({ userId := u, activityId := a, voteValue := 0 },
          { db with votes := (db.votes.filter
            (fun r => !(r.userId == u && r.activityId == a))) })) ∧
    ((∃ r ∈ db.votes, r.userId = u ∧ r.activityId = a) → (v = 1 ∨ v = -1) →
      Vote.castVote db u a v =
        .ok ({ userId := u, activityId := a, voteValue := v },
          { db with votes := (db.votes.map (fun r =>
            if r.userId == u && r.activityId == a then
              { r with voteValue := v, createdAt := db.now }
            else r)) })) ∧
    ((∀ r ∈ db.votes, ¬(r.userId = u ∧ r.activityId = a)) →
      Vote.castVote db u a 0 = .error (.badRequest "No existing vote to remove.")) ∧
    ((∀ r ∈ db.votes, ¬(r.userId = u ∧ r.activityId = a)) → (v = 1 ∨ v = -1) →
      Vote.castVote db u a v =
        .ok ({ userId := u, activityId := a, voteValue := v },
          { db with votes := (db.votes ++
            [{ userId := u, activityId := a, voteValue := v, createdAt := db.now }]) })) ∧
    ((∀ r ∈ db.votes, r.voteValue ≠ 0) → ∀ res db2,
      Vote.castVote db u a v = .ok (res, db2) → ∀ r ∈ db2.votes, r.voteValue ≠ 0) := by
  refine ⟨?_, ?_, ?_, ?_, ?_, ?_⟩
  · intro hv
    unfold Vote.castVote
    rw [if_pos (by simp [hv.1, hv.2.1, hv.2.2])]
  · intro hex
    have hlen : (db.votes.filter (fun r => r.userId == u && r.activityId == a)).length > 0 := by
      rw [filter_length_pos_iff_any, List.any_eq_true]
      obtain ⟨r, hmem, hru, hra⟩ := hex
      exact ⟨r, hmem, by rw [Bool.and_eq_true, beq_iff_eq, beq_iff_eq]; exact ⟨hru, hra⟩⟩
    unfold Vote.castVote
    rw [if_neg (by simp), if_pos hlen, if_pos (by decide)]
  · intro hex hv
    have hlen : (db.votes.filter (fun r => r.userId == u && r.activityId == a)).length > 0 := by
      rw [filter_length_pos_iff_any, List.any_eq_true]
      obtain ⟨r, hmem, hru, hra⟩ := hex
      exact ⟨r, hmem, by rw [Bool.and_eq_true, beq_iff_eq, beq_iff_eq]; exact ⟨hru, hra⟩⟩
    unfold Vote.castVote
    rw [if_neg (by rcases hv with h | h <;> simp [h]), if_pos hlen,
      if_neg (by rcases hv with h | h <;> simp [h])]
  · intro hall
    have hlenf :
        ¬((db.votes.filter (fun r => r.userId == u && r.activityId == a)).length > 0) := by
      rw [filter_length_pos_iff_any, List.any_eq_true]
      rintro ⟨r, hmem, hcond⟩
      rw [Bool.and_eq_true, beq_iff_eq, beq_iff_eq] at hcond
      exact hall r hmem hcond
    unfold Vote.castVote
    rw [if_neg (by simp), if_neg hlenf, if_pos (by decide)]
  · intro hall hv
    have hlenf :
        ¬((db.votes.filter (fun r => r.userId == u && r.activityId == a)).length > 0) := by
      rw [filter_length_pos_iff_any, List.any_eq_true]
      rintro ⟨r, hmem, hcond⟩
      rw [Bool.and_eq_true, beq_iff_eq, beq_iff_eq] at hcond
      exact hall r hmem hcond
    unfold Vote.castVote
    rw [if_neg (by rcases hv with h | h <;> simp [h]), if_neg hlenf,
      if_neg (by rcases hv with h | h <;> simp [h])]
  · intro h0 res db2 hok
    unfold Vote.castVote at hok
    split_ifs at hok with g1 g2 g3 g4
    · simp only [Except.ok.injEq, Prod.mk.injEq] at hok
      rw [← hok.2]
      intro r hr
      exact h0 r (List.mem_filter.mp hr).1
    · simp only [Except.ok.injEq, Prod.mk.injEq] at hok
      rw [← hok.2]
      intro r hr
      obtain ⟨orig, horig, hfo⟩ := List.mem_map.mp hr
      by_cases hcond : (orig.userId == u && orig.activityId == a) = true
      · rw [if_pos hcond] at hfo
        rw [← hfo]
        intro hv0
        exact g3 (beq_iff_eq.mpr hv0)
      · rw [if_neg hcond] at hfo
        rw [← hfo]
        exact h0 orig horig
    · simp only [Except.ok.injEq, Prod.mk.injEq] at hok
      rw [← hok.2]
      intro r hr
      rcases List.mem_append.mp hr with hold | hnew
      · exact h0 r hold
      · have hre : r =
            { userId := u, activityId := a, voteValue := v, createdAt := db.now } := by
          simpa using hnew
        rw [hre]
        intro hv0
        exact g4 (beq_iff_eq.mpr hv0)

/-- Witness for C4: every branch exercised at a concrete store — invalid
value 2 rejected; 0 on an existing row deletes it; -1 on an existing row
updates value and timestamp; 0 with no row rejected; +1 with no row
inserted; and the resulting store of the update holds no zero value. -/
theorem C4_castVote_spec_witness :
    Vote.castVote { db0 with votes := [⟨1, 7, 1, 0⟩] } 1 7 2 =
      .error (.badRequest
        "Invalid vote value. Must be either 1 (upvote), -1 (downvote), or 0 (vote removal).") ∧
    Vote.castVote { db0 with votes := [⟨1, 7, 1, 0⟩] } 1 7 0 =
      .ok (⟨1, 7, 0⟩, db0) ∧
    Vote.castVote { db0 with votes := [⟨1, 7, 1, 0⟩], now := 9 } 1 7 (-1) =
      .ok (⟨1, 7, -1⟩, { db0 with votes := [⟨1, 7, -1, 9⟩], now := 9 }) ∧
    Vote.castVote db0 1 7 0 = .error (.badRequest "No existing vote to remove.") ∧
    Vote.castVote db0 1 7 1 = .ok (⟨1, 7, 1⟩, { db0 with votes := [⟨1, 7, 1, 0⟩] }) ∧
    (∀ r ∈ ({ db0 with votes := [⟨1, 7, -1, 9⟩], now := 9 } : Db).votes, r.voteValue ≠ 0) := by
  refine ⟨?_, ?_, ?_, ?_, ?_, ?_⟩
  · exact (C4_castVote_spec { db0 with votes := [⟨1, 7, 1, 0⟩] } 1 7 2).1
      (by refine ⟨?_, ?_, ?_⟩ <;> decide)
  · exact ((C4_castVote_spec { db0 with votes := [⟨1, 7, 1, 0⟩] } 1 7 0).2.1
      ⟨⟨1, 7, 1, 0⟩, by decide, rfl, rfl⟩).trans (by decide)
  · exact ((C4_castVote_spec { db0 with votes := [⟨1, 7, 1, 0⟩], now := 9 } 1 7 (-1)).2.2.1
      ⟨⟨1, 7, 1, 0⟩, by decide, rfl, rfl⟩ (Or.inr rfl)).trans (by decide)
  · exact (C4_castVote_spec db0 1 7 0).2.2.2.1 (by intro r hr; cases hr)
  · exact ((C4_castVote_spec db0 1 7 1).2.2.2.2.1 (by intro r hr; cases hr)
      (Or.inl rfl)).trans (by decide)
  · exact (C4_castVote_spec { db0 with votes := [⟨1, 7, 1, 0⟩], now := 9 } 1 7 (-1)).2.2.2.2.2
      (by decide) ⟨1, 7, -1⟩ { db0 with votes := [⟨1, 7, -1, 9⟩], now := 9 } (by decide)

/-! ## C7 — private trip detail access -/

/-- Claim C7: for a logged-in user requesting a trip detail view, a
private trip with no membership row for the user answers Forbidden; a
public trip, or any membership row (owner role included), answers the
full nested payload assembled by Trip.get. -/
theorem C7_trip_detail_access (db : Db) (userId tripId : Nat) (trip : TripRow)
    (hu : ∃ usr ∈ db.users, usr.id = userId)
    (ht : db.trips.find? (fun t => t.id == tripId) = some trip) :
    (trip.isPrivate = true →
      (∀ m ∈ db.tripMembers, ¬(m.userId = userId ∧ m.tripId = tripId)) →
      Routes.getTripDetail db userId tripId =
        .error (.forbidden "Unauthorized to view this trip.")) ∧
    ((trip.isPrivate = false ∨
        (∃ m ∈ db.tripMembers, m.userId = userId ∧ m.tripId = tripId ∧ m.role = "owner") ∨
        (∃ m ∈ db.tripMembers, m.userId = userId ∧ m.tripId = tripId)) →
      ∃ d, Routes.getTripDetail db userId tripId = .ok d ∧ Trip.get db tripId = .ok d) := by
  have hid : trip.id = tripId := by
    have := List.find?_some ht
    rwa [beq_iff_eq] at this
  have hget : Trip.get db tripId =
      .ok { trip := trip,
            activities := Activity.getActivitiesByTrip db trip.id,
            members := TripMember.getTripMembers db trip.id,
            comments := Comment.getCommentsByTrip db trip.id } := by
    unfold Trip.get
    rw [ht]
  have husers : db.users.any (fun usr => usr.id == userId) = true := by
    rw [List.any_eq_true]
    obtain ⟨usr, hmemu, he⟩ := hu
    exact ⟨usr, hmemu, beq_iff_eq.mpr he⟩
  have htrips : db.trips.any (fun t => t.id == tripId) = true := by
    rw [List.any_eq_true]
    exact ⟨trip, List.mem_of_find?_eq_some ht, beq_iff_eq.mpr hid⟩
  have hmemEq : TripMember.isMember db userId tripId =
      .ok (db.tripMembers.find? (fun m => m.userId == userId && m.tripId == tripId)) := by
    unfold TripMember.isMember
    rw [if_neg (by rw [husers]; decide), if_neg (by rw [htrips]; decide)]
  constructor
  · intro hpriv hnone
    have hfind : db.tripMembers.find? (fun m => m.userId == userId && m.tripId == tripId)
        = none := by
      rw [List.find?_eq_none]
      intro m hm hc
      rw [Bool.and_eq_true, beq_iff_eq, beq_iff_eq] at hc
      exact hnone m hm hc
    unfold Routes.getTripDetail
    simp only [hget, hid, hmemEq, hfind]
    simp [hpriv]
  · intro hcase
    have hnotnone :
        (db.tripMembers.find? (fun m => m.userId == userId && m.tripId == tripId)).isNone
          = false ∨ trip.isPrivate = false := by
      rcases hcase with hpub | hmem | hmem
      · exact Or.inr hpub
      · obtain ⟨m, hm, h1, h2, _⟩ := hmem
        left
        cases hfind2 : db.tripMembers.find? (fun m => m.userId == userId && m.tripId == tripId) with
        | none =>
          have := List.find?_eq_none.mp hfind2 m hm
          rw [Bool.and_eq_true, beq_iff_eq, beq_iff_eq] at this
          exact absurd ⟨h1, h2⟩ this
        | some m0 => rfl
      · obtain ⟨m, hm, h1, h2⟩ := hmem
        left
        cases hfind2 : db.tripMembers.find? (fun m => m.userId == userId && m.tripId == tripId) with
        | none =>
          have := List.find?_eq_none.mp hfind2 m hm
          rw [Bool.and_eq_true, beq_iff_eq, beq_iff_eq] at this
          exact absurd ⟨h1, h2⟩ this
        | some m0 => rfl
    refine ⟨_, ?_, hget⟩
    unfold Routes.getTripDetail
    simp only [hget, hid, hmemEq]
    rcases hnotnone with hn | hpub
    · simp [hn]
    · simp [hpub]

/-- The store of the C7 witness: private trip 5 created and owned by
user 1; user 2 exists but has no membership row. -/
def dbC7 : Db :=
  { db0 with users := [mkUser 1 "amy", mkUser 2 "bob"],
             trips := [⟨5, "T", "D", 1, "s", "e", true, 0, 1⟩],
             tripMembers := [⟨1, 5, "owner", 0⟩] }

/-- Witness for C7: on a store with private trip 5 owned by user 1,
user 2 (no membership row) gets Forbidden and member user 1 gets the
payload. -/
theorem C7_trip_detail_access_witness :
    Routes.getTripDetail dbC7 2 5 =
      .error (.forbidden "Unauthorized to view this trip.") ∧
    (∃ d, Routes.getTripDetail dbC7 1 5 = .ok d ∧ Trip.get dbC7 5 = .ok d) := by
  constructor
  · exact (C7_trip_detail_access dbC7 2 5 ⟨5, "T", "D", 1, "s", "e", true, 0, 1⟩
      ⟨mkUser 2 "bob", by decide, rfl⟩ (by decide)).1 rfl (by decide)
  · exact (C7_trip_detail_access dbC7 1 5 ⟨5, "T", "D", 1, "s", "e", true, 0, 1⟩
      ⟨mkUser 1 "amy", by decide, rfl⟩ (by decide)).2
      (Or.inr (Or.inl ⟨⟨1, 5, "owner", 0⟩, by decide, rfl, rfl, rfl⟩))

/-! ## C8 — embedded vote lists are normalized -/

/-- Claim C8: the activity list assembled for a trip gives each activity
with zero votes the empty list — never the all-NULL placeholder entry of
the outer join — and otherwise exactly one {userId, voteValue} entry per
vote row. Stated for stores whose vote user ids are nonzero, which SQL
SERIAL user ids always are: the JavaScript truthiness test
`votes[0].userId` would also blank the list for a user id of 0. -/
theorem C8_activity_votes_normalized (db : Db) (tripId : Nat)
    (h0 : ∀ v ∈ db.votes, v.userId ≠ 0) :
    Activity.getActivitiesByTrip db tripId =
      (db.activities.filter (fun a => a.tripId == tripId)).map (fun a =>
        { id := a.id, tripId := a.tripId, name := a.name, category := a.category,
          description := a.description, location := a.location,
          scheduledTime := a.scheduledTime, createdBy := a.createdBy,
          createdAt := a.createdAt,
          votes := (db.votes.filter (fun v => v.activityId == a.id)).map
            (fun v => { userId := some v.userId, voteValue := some v.voteValue }) }) := by
  unfold Activity.getActivitiesByTrip
  apply List.map_congr_left
  intro a ha
  by_cases hj : (db.votes.filter (fun v => v.activityId == a.id)).isEmpty
  · have hnil : db.votes.filter (fun v => v.activityId == a.id) = [] :=
      List.isEmpty_iff.mp hj
    simp [hnil, jsTruthyOptNat]
  · have hne : db.votes.filter (fun v => v.activityId == a.id) ≠ [] := by
      intro hc
      rw [hc] at hj
      exact hj rfl
    obtain ⟨v0, vs, hcons⟩ := List.exists_cons_of_ne_nil hne
    have hv0 : v0 ∈ db.votes :=
      (List.mem_filter.mp (hcons ▸ List.mem_cons_self v0 vs)).1
    have hvne : v0.userId ≠ 0 := h0 v0 hv0
    simp [hcons, jsTruthyOptNat, hvne]

/-- The store of the C8 witness: trip 3 has activity 10 with no votes
and activity 11 with two votes. -/
def dbC8 : Db :=
  { db0 with activities := [⟨10, 3, "walk", "outdoors", "d", "loc", 1, 1, 0⟩,
                            ⟨11, 3, "food", "food", "d", "loc", 2, 1, 0⟩],
             votes := [⟨1, 11, 1, 0⟩, ⟨2, 11, -1, 0⟩] }

/-- Witness for C8: the voteless activity gets `[]`, not a null
placeholder, and the voted one gets one entry per vote row. -/
theorem C8_activity_votes_normalized_witness :
    Activity.getActivitiesByTrip dbC8 3 =
      [{ id := 10, tripId := 3, name := "walk", category := "outdoors",
         description := "d", location := "loc", scheduledTime := 1, createdBy := 1,
         createdAt := 0, votes := [] },
       { id := 11, tripId := 3, name := "food", category := "food",
         description := "d", location := "loc", scheduledTime := 2, createdBy := 1,
         createdAt := 0,
         votes := [⟨some 1, some 1⟩, ⟨some 2, some (-1)⟩] }] :=
  (C8_activity_votes_normalized dbC8 3 (by decide)).trans (by decide)

/-! ## C3 — trip creation is not atomic with the owner membership -/

/-- The store of the C3 evaluation: one user, empty trip table. -/
def dbC3 : Db := { db0 with users := [mkUser 1 "eva"], now := 5 }

/-- The request body of the C3 evaluation. -/
def tripDataC3 : Trip.TripNewData :=
  { title := "Trip", destination := "Tokyo", radius := 10,
    startDate := "2025-06-01", endDate := "2025-06-07", isPrivate := false,
    creatorId := 1 }

/-- The trip row the insert of the C3 evaluation produces. -/
def tripRowC3 : TripRow :=
  { id := 1, title := "Trip", destination := "Tokyo", radius := 10,
    startDate := "2025-06-01", endDate := "2025-06-07", isPrivate := false,
    createdAt := 5, creatorId := 1 }

/-- Claim C3 evaluated on the code: without a fault, creation yields
exactly one owner membership row for the creator; but when the second,
independent INSERT fails, the already-committed trip row stays in the
store with zero membership rows — Trip.create wraps no transaction
around the two writes, so the claimed atomicity does not hold. -/
theorem C3_create_partial_failure :
    ((Trip.create dbC3 tripDataC3 false).1 = .ok tripRowC3 ∧
      (Trip.create dbC3 tripDataC3 false).2.tripMembers.filter
        (fun m => m.tripId == tripRowC3.id) = [⟨1, 1, "owner", 5⟩]) ∧
    ((Trip.create dbC3 tripDataC3 true).1 =
        .error (.dbError "connection failed before the membership insert") ∧
      (∃ t ∈ (Trip.create dbC3 tripDataC3 true).2.trips,
        (Trip.create dbC3 tripDataC3 true).2.tripMembers.filter
          (fun m => m.tripId == t.id) = [])) := by decide

end OurTabi
